import Mathlib

/-!
Recipe finder: the search composition of `src/src/RecipeApp.jsx`.

A shallow embedding of the `RecipeApp` component: its seven pieces of React
state, the option values of its three selectors, and the asynchronous
`fetchRecipes` handler. The network is a function from the fetched URL to
what the fetch produced; every `fetch` the handler issues is logged in order.
`Math.random` is a stream of binary64 numbers in `[0, 1)`, and the products of
lines 81 and 83 are rounded as binary64 multiplication rounds them.
-/

namespace RecipeApp

/-! ## Data model -/

/-- Recipe stub of a directory answer: the three fields the component reads. -/
structure Meal where
  idMeal : String
  strMeal : String
  strMealThumb : String
deriving DecidableEq, Repr

/-- Parsed JSON body of a lookup. The field `meals` is `null` (here `none`,
the "no results" marker of the directory) or an array of stubs. -/
structure MealData where
  meals : Option (List Meal)
deriving DecidableEq, Repr

/-- What `await fetch(url)` followed by `await response.json()` produces:
either one of the two promises rejects, or a parsed body is returned. -/
inductive Response where
  | failure : Response
  | json (data : MealData) : Response
deriving DecidableEq, Repr

/-- Exceptions that can be raised inside the `try` block of `fetchRecipes`:
a rejected `fetch`/`json()` promise, or the `TypeError` of calling `.map`
on `null`. -/
inductive JsError where
  | fetchFailure : JsError
  | typeError : JsError
deriving DecidableEq, Repr

/-- JavaScript value stored in the `cookingTime` field of a card: the number
computed from `Math.random`, or the string held in the `cookingTime` state. -/
inductive JsValue where
  | number (n : Int) : JsValue
  | string (s : String) : JsValue
deriving DecidableEq, Repr

/-- Element of `withDetails`: `{ ...meal, cookingTime, servings }`. -/
structure Recipe where
  meal : Meal
  cookingTime : JsValue
  servings : Int
deriving DecidableEq, Repr

/-- The seven `useState` cells of the component. -/
structure AppState where
  ingredients : String
  cookingTime : String
  dietaryPreference : String
  cuisine : String
  recipes : List Recipe
  loading : Bool
  error : String
deriving DecidableEq, Repr

/-- Initial values of the `useState` calls (lines 7 to 13). -/
def initialState : AppState :=
  { ingredients := ""
    cookingTime := "any"
    dietaryPreference := "any"
    cuisine := "any"
    recipes := []
    loading := false
    error := "" }

/-! ## Selectors (lines 108 to 138) -/

/-- The `value` attributes of the cooking-time `<option>` elements, in order. -/
def cookingTimeOptions : List String := ["", "15", "30", "45", "60"]

/-- The `value` attributes of the dietary-preference `<option>` elements. -/
def dietaryPreferenceOptions : List String :=
  ["", "vegetarian", "vegan", "gluten-free", "dairy-free"]

/-- The `value` attributes of the cuisine `<option>` elements. -/
def cuisineOptions : List String :=
  ["any", "Indian", "Italian", "Mexican", "Chinese", "Thai", "French"]

/-- The `onChange` handler of the text input: `setIngredients(e.target.value)`. -/
def setIngredients (value : String) (s : AppState) : AppState :=
  { s with ingredients := value }

/-- The `onChange` handler of the first selector: `setCookingTime(e.target.value)`. -/
def setCookingTime (value : String) (s : AppState) : AppState :=
  { s with cookingTime := value }

/-- The `onChange` handler of the second selector. -/
def setDietaryPreference (value : String) (s : AppState) : AppState :=
  { s with dietaryPreference := value }

/-- The `onChange` handler of the third selector. -/
def setCuisine (value : String) (s : AppState) : AppState :=
  { s with cuisine := value }

/-! ## Messages and URLs -/

/-- Message of line 23. -/
def validationMessage : String := "Please enter ingredients or choose a cuisine."

/-- Message of line 60. -/
def noRecipesMessage : String := "⚠️ No recipes found. Try different filters."

/-- Message of line 88. -/
def fetchErrorMessage : String := "❌ Error fetching recipes. Please try again."

/-- Template literal of line 35. -/
def ingredientUrl (ingredients : String) : String :=
  "https://www.themealdb.com/api/json/v1/1/filter.php?i=" ++ ingredients

/-- Template literal of line 42. -/
def cuisineUrl (cuisine : String) : String :=
  "https://www.themealdb.com/api/json/v1/1/filter.php?a=" ++ cuisine

/-- String literal of line 69. -/
def vegetarianUrl : String :=
  "https://www.themealdb.com/api/json/v1/1/filter.php?c=Vegetarian"

/-! ## The handler -/

/-- Progress of the `try` block: the URLs fetched so far, in order, and either
the exception that was raised or the value computed. -/
structure Step (α : Type) where
  fetched : List String
  result : Except JsError α

/-- The pair `await fetch(url)`, `await response.json()`. -/
def fetchJson (env : String → Response) (url : String) : Except JsError MealData :=
  match env url with
  | .failure => .error .fetchFailure
  | .json data => .ok data

/-- The expression `meals.filter((meal) => ids.has(meal.idMeal))` where `ids`
is `new Set(others.map((meal) => meal.idMeal))` (lines 48 to 53, 72 and 73). -/
def keepIdsOf (meals others : List Meal) : List Meal :=
  let ids := others.map (fun meal => meal.idMeal)
  meals.filter (fun meal => ids.contains meal.idMeal)

/-- Lines 31 to 38: `data` starts as `{ meals: [] }` and is replaced by the
ingredient lookup when the `ingredients` string is truthy (non-empty). -/
def searchByIngredients (env : String → Response) (ingredients : String) : Step MealData :=
  if ingredients ≠ "" then
    ⟨[ingredientUrl ingredients], fetchJson env (ingredientUrl ingredients)⟩
  else
    ⟨[], .ok ⟨some []⟩⟩

/-- Lines 41 to 57, run after `searchByIngredients` left `before`. -/
def searchByCuisine (env : String → Response) (ingredients cuisine : String)
    (before : Step MealData) : Step MealData :=
  match before.result with
  | .error e => ⟨before.fetched, .error e⟩
  | .ok data =>
    if cuisine ≠ "any" then
      match fetchJson env (cuisineUrl cuisine) with
      | .error e => ⟨before.fetched ++ [cuisineUrl cuisine], .error e⟩
      | .ok cuisineData =>
        match decide (ingredients ≠ ""), data.meals with
        | true, some meals =>
          match cuisineData.meals with
          | none => ⟨before.fetched ++ [cuisineUrl cuisine], .error .typeError⟩
          | some cuisineMeals =>
            ⟨before.fetched ++ [cuisineUrl cuisine], .ok ⟨some (keepIdsOf meals cuisineMeals)⟩⟩
        | _, _ => ⟨before.fetched ++ [cuisineUrl cuisine], .ok cuisineData⟩
    else
      ⟨before.fetched, .ok data⟩

/-- The value of `data` when line 59 is reached (the working set is its
`meals` field), with the lookups issued on the way. -/
def workingSet (env : String → Response) (ingredients cuisine : String) : Step MealData :=
  searchByCuisine env ingredients cuisine (searchByIngredients env ingredients)

/-- Lines 66 to 74: `filtered` starts as `data.meals` and is intersected with
the vegetarian category when `dietaryPreference === "vegetarian"`. -/
def applyVegetarianFilter (env : String → Response) (dietaryPreference : String)
    (meals : List Meal) : Step (List Meal) :=
  if dietaryPreference = "vegetarian" then
    match fetchJson env vegetarianUrl with
    | .error e => ⟨[vegetarianUrl], .error e⟩
    | .ok vegData =>
      match vegData.meals with
      | none => ⟨[vegetarianUrl], .error .typeError⟩
      | some vegMeals => ⟨[vegetarianUrl], .ok (keepIdsOf meals vegMeals)⟩
  else
    ⟨[], .ok meals⟩

/-- Lines 31 to 74 together: `none` is the early return of lines 59 to 63,
`some filtered` is the value of `filtered` when line 77 is reached. -/
def filterStage (env : String → Response) (s : AppState) : Step (Option (List Meal)) :=
  let w := workingSet env s.ingredients s.cuisine
  match w.result with
  | .error e => ⟨w.fetched, .error e⟩
  | .ok data =>
    match data.meals with
    | none => ⟨w.fetched, .ok none⟩
    | some meals =>
      let v := applyVegetarianFilter env s.dietaryPreference meals
      match v.result with
      | .error e => ⟨w.fetched ++ v.fetched, .error e⟩
      | .ok filtered => ⟨w.fetched ++ v.fetched, .ok (some filtered)⟩

/-! ### Binary64 arithmetic of lines 81 and 83 -/

/-- Value returned by a call of `Math.random()`: the binary64 number
`numerator / 2 ^ scale`. -/
structure Draw where
  numerator : Nat
  scale : Nat
deriving DecidableEq, Repr

/-- The binary64 numbers `r` with `0 <= r < 1`: at most 53 significant bits, a
binary scale no finer than the smallest subnormal step `2 ^ -1074`, and a value
below one. Every such number has this form (zero is `0 / 2 ^ 0`). -/
def Draw.inUnitInterval (d : Draw) : Prop :=
  d.numerator < 2 ^ 53 ∧ d.scale ≤ 1074 ∧ d.numerator < 2 ^ d.scale

instance (d : Draw) : Decidable d.inUnitInterval := by
  unfold Draw.inUnitInterval
  infer_instance

/-- Number of halvings that bring `p` below `2 ^ 53`, with at most `fuel`
halvings made. -/
def dropCount : Nat → Nat → Nat
  | 0, _ => 0
  | fuel + 1, p => if p < 2 ^ 53 then 0 else dropCount fuel (p / 2) + 1

/-- Number of low bits of `p` that do not fit in a 53-bit significand. The
fuel `p` is never used up, see `droppedBits_spec`. -/
def droppedBits (p : Nat) : Nat := dropCount p p

/-- Rounding of a binary64 operation, applied to the exact result `p` counted
in units of a fixed power of two: `p` keeps its 53 leading bits, the bits
below are dropped, and the kept part is rounded to nearest, ties to the even
significand. -/
def roundToDouble (p : Nat) : Nat :=
  let drop := droppedBits p
  let kept := p / 2 ^ drop
  let rest := p % 2 ^ drop
  if 2 ^ drop < 2 * rest ∨ (2 * rest = 2 ^ drop ∧ kept % 2 = 1) then (kept + 1) * 2 ^ drop
  else kept * 2 ^ drop

/-- The expression `Math.floor(Math.random() * c)` for the draw `d` and the
integer constant `c` (60 on line 81, 4 on line 83). The exact product is
`d.numerator * c` in units of `2 ^ -d.scale`; the multiplication rounds it to
a binary64 number (no overflow, and no underflow since the unit is at least
`2 ^ -1074`), and `Math.floor` takes the integer part. -/
def floorOfProduct (d : Draw) (c : Nat) : Nat :=
  roundToDouble (d.numerator * c) / 2 ^ d.scale

/-- Lines 77 to 84: `filtered.map(...)`. The callback runs on the stubs in
order; call number `k` of `Math.random()` returns `rnd k`, and `next` is the
number of calls made so far. A card draws once for the cooking time (only
when `cookingTime === "any"`) and then once for the servings. The sums
`+ 20` and `+ 1` of small integers are exact in binary64. -/
def addDetails (cookingTime : String) (rnd : Nat → Draw) : Nat → List Meal → List Recipe
  | _, [] => []
  | next, meal :: rest =>
    if cookingTime = "any" then
      { meal := meal
        cookingTime := .number ((floorOfProduct (rnd next) 60 : Nat) + 20)
        servings := (floorOfProduct (rnd (next + 1)) 4 : Nat) + 1 }
        :: addDetails cookingTime rnd (next + 2) rest
    else
      { meal := meal
        cookingTime := .string cookingTime
        servings := (floorOfProduct (rnd next) 4 : Nat) + 1 }
        :: addDetails cookingTime rnd (next + 1) rest

/-- How the `try` block ends when nothing is thrown: the `return` of line 62,
or falling through after `setRecipes(withDetails)`. -/
inductive Completion where
  | noRecipes : Completion
  | loaded (withDetails : List Recipe) : Completion
deriving DecidableEq, Repr

/-- The `try` block, lines 31 to 86. -/
def tryBlock (env : String → Response) (rnd : Nat → Draw) (s : AppState) : Step Completion :=
  let f := filterStage env s
  match f.result with
  | .error e => ⟨f.fetched, .error e⟩
  | .ok none => ⟨f.fetched, .ok .noRecipes⟩
  | .ok (some filtered) => ⟨f.fetched, .ok (.loaded (addDetails s.cookingTime rnd 0 filtered))⟩

/-- What a call of `fetchRecipes` leaves behind: the component state once all
its `set...` calls are applied, and the URLs it fetched, in order. -/
structure Run where
  state : AppState
  fetched : List String

/-- The handler `fetchRecipes`, lines 21 to 91, called in state `s`. -/
def fetchRecipes (env : String → Response) (rnd : Nat → Draw) (s : AppState) : Run :=
  if s.ingredients = "" ∧ s.cuisine = "any" then
    ⟨{ s with error := validationMessage }, []⟩
  else
    let started : AppState := { s with loading := true, error := "", recipes := [] }
    let t := tryBlock env rnd s
    match t.result with
    | .ok .noRecipes =>
      ⟨{ started with error := noRecipesMessage, loading := false }, t.fetched⟩
    | .ok (.loaded withDetails) =>
      ⟨{ started with recipes := withDetails, loading := false }, t.fetched⟩
    | .error _ =>
      ⟨{ started with error := fetchErrorMessage, loading := false }, t.fetched⟩

/-- The `useEffect` of lines 16 to 19: one call of `fetchRecipes` in the
initial state when the component mounts. -/
def onMount (env : String → Response) (rnd : Nat → Draw) : Run :=
  fetchRecipes env rnd initialState

/-! ## Sample data used in the concrete evaluations -/

/-- Sample stub with id 52772. -/
def teriyaki : Meal := ⟨"52772", "Teriyaki Chicken Casserole", "t.jpg"⟩

/-- Sample stub with id 52844. -/
def lasagne : Meal := ⟨"52844", "Lasagne", "l.jpg"⟩

/-- Sample stub with id 52807. -/
def bainganBharta : Meal := ⟨"52807", "Baingan Bharta", "b.jpg"⟩

/-- Sample network. Ingredient "onion" matches two stubs and "truffle" none;
cuisine "Indian" and cuisine "Italian" each match one stub and "Thai" none;
the vegetarian category holds one stub; every other fetch fails. -/
def sampleNetwork : String → Response := fun url =>
  if url = ingredientUrl "onion" then .json ⟨some [teriyaki, bainganBharta]⟩
  else if url = ingredientUrl "truffle" then .json ⟨none⟩
  else if url = cuisineUrl "Indian" then .json ⟨some [bainganBharta]⟩
  else if url = cuisineUrl "Italian" then .json ⟨some [lasagne]⟩
  else if url = cuisineUrl "Thai" then .json ⟨none⟩
  else if url = vegetarianUrl then .json ⟨some [bainganBharta]⟩
  else .failure

/-- The sample network on a day when the vegetarian category answers with the
"no results" marker. -/
def sampleNetworkNoVegetarian : String → Response := fun url =>
  if url = vegetarianUrl then .json ⟨none⟩ else sampleNetwork url

/-- Random source that always returns one half. -/
def halves : Nat → Draw := fun _ => ⟨1, 1⟩

/-- State after typing `text` and choosing the three selector values. -/
def criteria (text cookingTime dietaryPreference cuisine : String) : AppState :=
  setCuisine cuisine (setDietaryPreference dietaryPreference
    (setCookingTime cookingTime (setIngredients text initialState)))

/-! ## Auxiliary facts -/

/-- The id test of `keepIdsOf` keeps exactly the stubs whose id occurs among
the ids of the other list. -/
theorem keepIdsOf_eq_filter (meals others : List Meal) :
    keepIdsOf meals others
      = meals.filter (fun m => decide (∃ o ∈ others, o.idMeal = m.idMeal)) := by
  unfold keepIdsOf
  apply List.filter_congr
  intro m _
  simp

/-- Characters of an ingredient URL: the shared base, then `i=`, then the text. -/
theorem data_ingredientUrl (x : String) :
    (ingredientUrl x).data
      = "https://www.themealdb.com/api/json/v1/1/filter.php?".data ++ ('i' :: '=' :: x.data) := by
  simp [ingredientUrl, String.data_append]

/-- Characters of a cuisine URL: the shared base, then `a=`, then the cuisine. -/
theorem data_cuisineUrl (x : String) :
    (cuisineUrl x).data
      = "https://www.themealdb.com/api/json/v1/1/filter.php?".data ++ ('a' :: '=' :: x.data) := by
  simp [cuisineUrl, String.data_append]

/-- Characters of the vegetarian URL: the shared base, then `c=Vegetarian`. -/
theorem data_vegetarianUrl :
    vegetarianUrl.data
      = "https://www.themealdb.com/api/json/v1/1/filter.php?".data ++ ('c' :: "=Vegetarian".data) := by
  rfl

/-- No ingredient text makes the ingredient URL equal to the vegetarian URL. -/
theorem vegetarianUrl_ne_ingredientUrl (x : String) : vegetarianUrl ≠ ingredientUrl x := by
  intro h
  have h2 := congrArg String.data h
  rw [data_ingredientUrl, data_vegetarianUrl] at h2
  have h3 := List.append_cancel_left h2
  simp at h3

/-- No cuisine makes the cuisine URL equal to the vegetarian URL. -/
theorem vegetarianUrl_ne_cuisineUrl (x : String) : vegetarianUrl ≠ cuisineUrl x := by
  intro h
  have h2 := congrArg String.data h
  rw [data_cuisineUrl, data_vegetarianUrl] at h2
  have h3 := List.append_cancel_left h2
  simp at h3

/-- The ingredient and cuisine steps only ever fetch an ingredient URL or a
cuisine URL. -/
theorem workingSet_fetched (env : String → Response) (ingredients cuisine : String) :
    ∀ u ∈ (workingSet env ingredients cuisine).fetched,
      u = ingredientUrl ingredients ∨ u = cuisineUrl cuisine := by
  intro u hu
  unfold workingSet searchByCuisine searchByIngredients at hu
  by_cases hi : ingredients = "" <;> by_cases hc : cuisine = "any" <;>
    simp only [hi, hc, ne_eq, not_true_eq_false, not_false_eq_true, if_true, if_false] at hu
  all_goals (repeat' split at hu) <;> simp_all

/-- The vegetarian URL is not fetched by the ingredient and cuisine steps. -/
theorem vegetarianUrl_not_mem_workingSet (env : String → Response)
    (ingredients cuisine : String) :
    vegetarianUrl ∉ (workingSet env ingredients cuisine).fetched := by
  intro h
  rcases workingSet_fetched env ingredients cuisine _ h with h1 | h1
  · exact vegetarianUrl_ne_ingredientUrl _ h1
  · exact vegetarianUrl_ne_cuisineUrl _ h1

/-- Decoration keeps the stubs: same length, same records, same order. -/
theorem addDetails_meal (cookingTime : String) (rnd : Nat → Draw) (meals : List Meal) :
    ∀ next, (addDetails cookingTime rnd next meals).map (fun r => r.meal) = meals := by
  induction meals with
  | nil => intro next; simp [addDetails]
  | cons m rest ih =>
    intro next
    unfold addDetails
    split <;> simp [ih]


/-! ## Validation -/

/-- Claim C1. When the ingredients text is empty and the cuisine is "any",
`fetchRecipes` only sets the validation message (every other state cell keeps
its value) and fetches nothing, whatever the dietary preference, the cooking
time, the network and the random source are. -/
theorem fetchRecipes_validation (env : String → Response) (rnd : Nat → Draw) (s : AppState)
    (hi : s.ingredients = "") (hc : s.cuisine = "any") :
    (fetchRecipes env rnd s).state.error = validationMessage ∧
    (fetchRecipes env rnd s).state = { s with error := validationMessage } ∧
    (fetchRecipes env rnd s).fetched = [] := by
  simp [fetchRecipes, hi, hc]

/-- Instance of C1: vegan, 30 minutes, a network on which every fetch fails. -/
theorem fetchRecipes_validation_witness :
    (criteria "" "30" "vegan" "any").ingredients = "" ∧
    (criteria "" "30" "vegan" "any").cuisine = "any" ∧
    (fetchRecipes (fun _ => Response.failure) halves
        (criteria "" "30" "vegan" "any")).state.error = validationMessage ∧
    (fetchRecipes (fun _ => Response.failure) halves
        (criteria "" "30" "vegan" "any")).fetched = [] :=
  ⟨rfl, rfl,
    (fetchRecipes_validation (fun _ => Response.failure) halves
      (criteria "" "30" "vegan" "any") rfl rfl).1,
    (fetchRecipes_validation (fun _ => Response.failure) halves
      (criteria "" "30" "vegan" "any") rfl rfl).2.2⟩

/-! ## Ingredient and cuisine steps -/

/-- With a dietary preference other than "vegetarian", a defined working list
is shown as it is: the cards carry exactly its stubs, in its order. -/
theorem fetchRecipes_recipes_of_workingSet (env : String → Response) (rnd : Nat → Draw)
    (s : AppState) (W : List Meal)
    (hv : ¬ (s.ingredients = "" ∧ s.cuisine = "any"))
    (hW : (workingSet env s.ingredients s.cuisine).result = .ok ⟨some W⟩)
    (hd : s.dietaryPreference ≠ "vegetarian") :
    (fetchRecipes env rnd s).state.recipes.map (fun r => r.meal) = W ∧
    (fetchRecipes env rnd s).fetched = (workingSet env s.ingredients s.cuisine).fetched := by
  simp [fetchRecipes, hv, tryBlock, filterStage, hW, applyVegetarianFilter, hd, addDetails_meal]

/-- Claim C2. Let the ingredients text be non-empty and the ingredient lookup
return the list `I`. With cuisine "any" the working set is `I` itself and the
only fetch is the ingredient one. With another cuisine whose lookup returns
the list `C`, the working set is the sublist of `I` of the stubs whose id
occurs in `C`, in the order of `I`. In both cases, when the dietary preference
is not "vegetarian", the cards shown carry exactly the stubs of the working
set, in its order. -/
theorem workingSet_ingredients (env : String → Response) (rnd : Nat → Draw) (s : AppState)
    (I : List Meal) (hi : s.ingredients ≠ "")
    (hI : env (ingredientUrl s.ingredients) = .json ⟨some I⟩) :
    (s.cuisine = "any" →
      (workingSet env s.ingredients s.cuisine).result = .ok ⟨some I⟩ ∧
      (workingSet env s.ingredients s.cuisine).fetched = [ingredientUrl s.ingredients] ∧
      (s.dietaryPreference ≠ "vegetarian" →
        (fetchRecipes env rnd s).state.recipes.map (fun r => r.meal) = I ∧
        (fetchRecipes env rnd s).state.recipes.map (fun r => r.meal.idMeal)
          = I.map (fun m => m.idMeal))) ∧
    (s.cuisine ≠ "any" → ∀ C : List Meal, env (cuisineUrl s.cuisine) = .json ⟨some C⟩ →
      (workingSet env s.ingredients s.cuisine).result
        = .ok ⟨some (I.filter (fun m => decide (∃ c ∈ C, c.idMeal = m.idMeal)))⟩ ∧
      (s.dietaryPreference ≠ "vegetarian" →
        (fetchRecipes env rnd s).state.recipes.map (fun r => r.meal)
          = I.filter (fun m => decide (∃ c ∈ C, c.idMeal = m.idMeal)) ∧
        (fetchRecipes env rnd s).state.recipes.map (fun r => r.meal.idMeal)
          = (I.filter (fun m => decide (∃ c ∈ C, c.idMeal = m.idMeal))).map
              (fun m => m.idMeal))) := by
  have hv : ¬ (s.ingredients = "" ∧ s.cuisine = "any") := fun h => hi h.1
  constructor
  · intro hc
    have hW : (workingSet env s.ingredients s.cuisine).result = .ok ⟨some I⟩ := by
      simp [workingSet, searchByCuisine, searchByIngredients, fetchJson, hi, hI, hc]
    refine ⟨hW, ?_, ?_⟩
    · simp [workingSet, searchByCuisine, searchByIngredients, fetchJson, hi, hI, hc]
    · intro hd
      have h := (fetchRecipes_recipes_of_workingSet env rnd s I hv hW hd).1
      refine ⟨h, ?_⟩
      rw [← h, List.map_map]
      rfl
  · intro hc C hC
    have hW : (workingSet env s.ingredients s.cuisine).result
        = .ok ⟨some (I.filter (fun m => decide (∃ c ∈ C, c.idMeal = m.idMeal)))⟩ := by
      simp [workingSet, searchByCuisine, searchByIngredients, fetchJson, hi, hI, hc, hC,
        keepIdsOf_eq_filter]
    refine ⟨hW, ?_⟩
    intro hd
    have h := (fetchRecipes_recipes_of_workingSet env rnd s _ hv hW hd).1
    refine ⟨h, ?_⟩
    rw [← h, List.map_map]
    rfl

/-- Claim C3. When the cuisine is not "any" and either the ingredients text is
empty or the ingredient lookup answered with the "no results" marker, the
value of `data` after the two steps is the body of the cuisine lookup itself:
it replaces, nothing is intersected. -/
theorem workingSet_cuisine_replaces (env : String → Response) (ingredients cuisine : String)
    (cuisineData : MealData) (hc : cuisine ≠ "any")
    (hi : ingredients = "" ∨ env (ingredientUrl ingredients) = .json ⟨none⟩)
    (hC : env (cuisineUrl cuisine) = .json cuisineData) :
    (workingSet env ingredients cuisine).result = .ok cuisineData := by
  rcases hi with hi | hi
  · simp [workingSet, searchByCuisine, searchByIngredients, fetchJson, hi, hc, hC]
  · by_cases he : ingredients = ""
    · simp [workingSet, searchByCuisine, searchByIngredients, fetchJson, he, hc, hC]
    · simp [workingSet, searchByCuisine, searchByIngredients, fetchJson, he, hi, hc, hC]

/-! ## Dietary filter -/

/-- Claim C4. Let a search pass validation and reach line 66 with the defined
working list `W`. If the dietary preference is "vegetarian" and the vegetarian
lookup returns the list `V`, the cards carry exactly the stubs of `W` whose id
occurs in `V`, in the order of `W`. For every other dietary preference the
cards carry exactly the stubs of `W` and the vegetarian URL is not fetched. -/
theorem fetchRecipes_dietary (env : String → Response) (rnd : Nat → Draw) (s : AppState)
    (W : List Meal) (hv : ¬ (s.ingredients = "" ∧ s.cuisine = "any"))
    (hW : (workingSet env s.ingredients s.cuisine).result = .ok ⟨some W⟩) :
    (s.dietaryPreference = "vegetarian" →
      ∀ V : List Meal, env vegetarianUrl = .json ⟨some V⟩ →
        (fetchRecipes env rnd s).state.recipes.map (fun r => r.meal)
          = W.filter (fun m => decide (∃ v ∈ V, v.idMeal = m.idMeal))) ∧
    (s.dietaryPreference ≠ "vegetarian" →
      (fetchRecipes env rnd s).state.recipes.map (fun r => r.meal) = W ∧
      vegetarianUrl ∉ (fetchRecipes env rnd s).fetched) := by
  constructor
  · intro hd V hV
    simp [fetchRecipes, hv, tryBlock, filterStage, hW, applyVegetarianFilter, hd, fetchJson,
      hV, addDetails_meal, keepIdsOf_eq_filter]
  · intro hd
    have h := fetchRecipes_recipes_of_workingSet env rnd s W hv hW hd
    refine ⟨h.1, ?_⟩
    rw [h.2]
    exact vegetarianUrl_not_mem_workingSet env s.ingredients s.cuisine


/-- Instance of C2: "onion" with cuisine "Indian" on the sample network. -/
theorem workingSet_ingredients_witness :
    (criteria "onion" "30" "any" "Indian").ingredients ≠ "" ∧
    sampleNetwork (ingredientUrl (criteria "onion" "30" "any" "Indian").ingredients)
      = .json ⟨some [teriyaki, bainganBharta]⟩ ∧
    (fetchRecipes sampleNetwork halves (criteria "onion" "30" "any" "Indian")).state.recipes.map
        (fun r => r.meal)
      = [teriyaki, bainganBharta].filter
          (fun m => decide (∃ c ∈ [bainganBharta], c.idMeal = m.idMeal)) :=
  ⟨by decide, by decide,
    (((workingSet_ingredients sampleNetwork halves (criteria "onion" "30" "any" "Indian")
      [teriyaki, bainganBharta] (by decide) (by decide)).2 (by decide) [bainganBharta]
      (by decide)).2 (by decide)).1⟩

/-- Instance of C3: "truffle" matches nothing, so cuisine "Italian" replaces. -/
theorem workingSet_cuisine_replaces_witness :
    "Italian" ≠ "any" ∧
    ("truffle" = "" ∨ sampleNetwork (ingredientUrl "truffle") = .json ⟨none⟩) ∧
    sampleNetwork (cuisineUrl "Italian") = .json ⟨some [lasagne]⟩ ∧
    (workingSet sampleNetwork "truffle" "Italian").result = .ok ⟨some [lasagne]⟩ :=
  ⟨by decide, Or.inr (by decide), by decide,
    workingSet_cuisine_replaces sampleNetwork "truffle" "Italian" ⟨some [lasagne]⟩
      (by decide) (Or.inr (by decide)) (by decide)⟩

/-- Instance of C4: "onion" matches two stubs, and the dietary preference
"vegetarian" keeps the one that is in the vegetarian category. -/
theorem fetchRecipes_dietary_witness :
    ¬ ((criteria "onion" "any" "vegetarian" "any").ingredients = "" ∧
        (criteria "onion" "any" "vegetarian" "any").cuisine = "any") ∧
    (workingSet sampleNetwork (criteria "onion" "any" "vegetarian" "any").ingredients
        (criteria "onion" "any" "vegetarian" "any").cuisine).result
      = .ok ⟨some [teriyaki, bainganBharta]⟩ ∧
    sampleNetwork vegetarianUrl = .json ⟨some [bainganBharta]⟩ ∧
    (fetchRecipes sampleNetwork halves (criteria "onion" "any" "vegetarian" "any")).state.recipes.map
        (fun r => r.meal)
      = [teriyaki, bainganBharta].filter
          (fun m => decide (∃ v ∈ [bainganBharta], v.idMeal = m.idMeal)) ∧
    [teriyaki, bainganBharta].filter
        (fun m => decide (∃ v ∈ [bainganBharta], v.idMeal = m.idMeal)) = [bainganBharta] :=
  ⟨by decide, by rfl, by decide,
    (fetchRecipes_dietary sampleNetwork halves (criteria "onion" "any" "vegetarian" "any")
      [teriyaki, bainganBharta] (by decide) (by rfl)).1 (by decide) [bainganBharta] (by decide),
    by decide⟩

/-! ## Empty and missing lists -/

/-- Claim C5, evaluated. Ingredient "onion" and cuisine "Italian" share no id
on the sample network, so the working set is the empty array. The guard of
line 59 does not fire on it: the vegetarian URL is fetched, and the search
ends with no cards and no message instead of the "No recipes found" one. -/
theorem fetchRecipes_empty_workingSet :
    (workingSet sampleNetwork "onion" "Italian").result = .ok ⟨some []⟩ ∧
    (fetchRecipes sampleNetwork halves
        (criteria "onion" "any" "vegetarian" "Italian")).state.error = "" ∧
    (fetchRecipes sampleNetwork halves
        (criteria "onion" "any" "vegetarian" "Italian")).state.error ≠ noRecipesMessage ∧
    (fetchRecipes sampleNetwork halves
        (criteria "onion" "any" "vegetarian" "Italian")).state.recipes = [] ∧
    (fetchRecipes sampleNetwork halves
        (criteria "onion" "any" "vegetarian" "Italian")).fetched
      = [ingredientUrl "onion", cuisineUrl "Italian", vegetarianUrl] :=
  ⟨by rfl, by decide, by decide, by decide, by decide⟩

/-- Claim C6, evaluated. No fetch fails on the sample networks, yet a "no
results" answer of the cuisine lookup after a defined ingredient list, and a
"no results" answer of the vegetarian lookup, both end with the message
"Error fetching recipes": `.map` is called on `null` and the `catch` of line
87 reports the `TypeError` as a fetch error. -/
theorem fetchRecipes_no_results_marker :
    sampleNetwork (ingredientUrl "onion") = .json ⟨some [teriyaki, bainganBharta]⟩ ∧
    sampleNetwork (cuisineUrl "Thai") = .json ⟨none⟩ ∧
    (workingSet sampleNetwork "onion" "Thai").result = .error .typeError ∧
    (fetchRecipes sampleNetwork halves (criteria "onion" "any" "any" "Thai")).state.error
      = fetchErrorMessage ∧
    sampleNetworkNoVegetarian (ingredientUrl "onion")
      = .json ⟨some [teriyaki, bainganBharta]⟩ ∧
    sampleNetworkNoVegetarian vegetarianUrl = .json ⟨none⟩ ∧
    (filterStage sampleNetworkNoVegetarian
        (criteria "onion" "any" "vegetarian" "any")).result = .error .typeError ∧
    (fetchRecipes sampleNetworkNoVegetarian halves
        (criteria "onion" "any" "vegetarian" "any")).state.error = fetchErrorMessage :=
  ⟨by decide, by decide, by rfl, by decide, by decide, by decide, by rfl, by decide⟩

/-! ## Failing lookups -/

/-- When the ingredient and cuisine steps end without an exception, none of the
fetches they issued failed. -/
theorem workingSet_ok_fetched (env : String → Response) (ingredients cuisine : String)
    (data : MealData) (h : (workingSet env ingredients cuisine).result = .ok data) :
    ∀ u ∈ (workingSet env ingredients cuisine).fetched, env u ≠ .failure := by
  intro u hu hf
  have key : ∀ v d, fetchJson env v = .ok d → u ≠ v := by
    intro v d hv huv
    subst huv
    simp [fetchJson, hf] at hv
  revert h hu
  unfold workingSet searchByCuisine searchByIngredients
  by_cases hi : ingredients = "" <;> by_cases hc : cuisine = "any" <;>
    simp only [hi, hc, ne_eq, not_true_eq_false, not_false_eq_true, if_true, if_false]
  all_goals (repeat' split)
  all_goals intro h hu
  all_goals (try simp only [List.mem_append, List.mem_singleton, List.mem_cons,
    List.not_mem_nil, or_false, false_or] at hu)
  all_goals first
    | (simp_all; done)
    | (subst hu; exact key _ _ (by assumption) rfl)

/-- When the vegetarian step ends without an exception, no fetch it issued failed. -/
theorem applyVegetarianFilter_ok_fetched (env : String → Response)
    (dietaryPreference : String) (meals filtered : List Meal)
    (h : (applyVegetarianFilter env dietaryPreference meals).result = .ok filtered) :
    ∀ u ∈ (applyVegetarianFilter env dietaryPreference meals).fetched, env u ≠ .failure := by
  intro u hu hf
  unfold applyVegetarianFilter fetchJson at h hu
  by_cases hd : dietaryPreference = "vegetarian" <;>
    simp only [hd, if_true, if_false] at h hu
  all_goals (repeat' split at h) <;> simp_all

/-- When lines 31 to 74 end without an exception, none of the fetches failed. -/
theorem filterStage_ok_fetched (env : String → Response) (s : AppState)
    (x : Option (List Meal)) (h : (filterStage env s).result = .ok x) :
    ∀ u ∈ (filterStage env s).fetched, env u ≠ .failure := by
  intro u hu
  unfold filterStage at h hu
  cases hw : (workingSet env s.ingredients s.cuisine).result with
  | error e => simp [hw] at h
  | ok data =>
    have h1 := workingSet_ok_fetched env s.ingredients s.cuisine data hw
    cases hm : data.meals with
    | none =>
      simp [hw, hm] at hu
      exact h1 u hu
    | some meals =>
      cases hv : (applyVegetarianFilter env s.dietaryPreference meals).result with
      | error e => simp [hw, hm, hv] at h
      | ok filtered =>
        have h2 := applyVegetarianFilter_ok_fetched env s.dietaryPreference meals filtered hv
        simp [hw, hm, hv] at hu
        rcases hu with hu | hu
        · exact h1 u hu
        · exact h2 u hu

/-- Claim C7. Let a search pass validation and let one of the fetches it issued
fail (the `fetch` or the `json()` promise rejects), whichever one and whatever
the earlier ones returned. Then an exception was raised inside the `try`
block, the `catch` turned it into the message "Error fetching recipes", the
card list is the empty one set at line 28, the loading flag is false, and the
search criteria are untouched. `fetchRecipes` is a total function of the
state, so nothing escapes it. -/
theorem fetchRecipes_failed_lookup (env : String → Response) (rnd : Nat → Draw) (s : AppState)
    (hv : ¬ (s.ingredients = "" ∧ s.cuisine = "any"))
    (hf : ∃ u ∈ (fetchRecipes env rnd s).fetched, env u = .failure) :
    (∃ e, (tryBlock env rnd s).result = .error e) ∧
    (fetchRecipes env rnd s).state.error = fetchErrorMessage ∧
    (fetchRecipes env rnd s).state.recipes = [] ∧
    (fetchRecipes env rnd s).state.loading = false ∧
    (fetchRecipes env rnd s).state
      = { s with error := fetchErrorMessage, recipes := [], loading := false } := by
  obtain ⟨u, hu, hfail⟩ := hf
  cases hr : (filterStage env s).result with
  | ok x =>
    exfalso
    have hfetched : (fetchRecipes env rnd s).fetched = (filterStage env s).fetched := by
      cases x <;> simp [fetchRecipes, hv, tryBlock, hr]
    rw [hfetched] at hu
    exact filterStage_ok_fetched env s x hr u hu hfail
  | error e =>
    simp [fetchRecipes, hv, tryBlock, hr]

/-- Instance of C7: the ingredient lookup answers, the cuisine lookup fails. -/
theorem fetchRecipes_failed_lookup_witness :
    ¬ ((criteria "onion" "any" "any" "French").ingredients = "" ∧
        (criteria "onion" "any" "any" "French").cuisine = "any") ∧
    (∃ u ∈ (fetchRecipes sampleNetwork halves (criteria "onion" "any" "any" "French")).fetched,
        sampleNetwork u = .failure) ∧
    (fetchRecipes sampleNetwork halves (criteria "onion" "any" "any" "French")).state
      = { criteria "onion" "any" "any" "French" with
          error := fetchErrorMessage, recipes := [], loading := false } :=
  ⟨by decide, ⟨cuisineUrl "French", by decide, by decide⟩,
    (fetchRecipes_failed_lookup sampleNetwork halves (criteria "onion" "any" "any" "French")
      (by decide) ⟨cuisineUrl "French", by decide, by decide⟩).2.2.2.2⟩


/-! ## Decoration -/

/-- A number below `2 ^ 53` needs no halving. -/
theorem dropCount_small (fuel p : Nat) (h : p < 2 ^ 53) : dropCount (fuel + 1) p = 0 := by
  unfold dropCount
  exact if_pos h

/-- A number of at least `2 ^ 53` is halved once and counted again. -/
theorem dropCount_large (fuel p : Nat) (h : ¬ p < 2 ^ 53) :
    dropCount (fuel + 1) p = dropCount fuel (p / 2) + 1 := by
  conv_lhs => unfold dropCount
  exact if_neg h

/-- Dividing by `2 ^ (d + 1)` is halving and then dividing by `2 ^ d`. -/
theorem div_two_pow_succ (p d : Nat) : p / 2 ^ (d + 1) = p / 2 / 2 ^ d := by
  rw [pow_succ, mul_comm, Nat.div_div_eq_div_mul]

/-- With fuel at least `p`, what is kept of `p` fits in 53 bits. -/
theorem dropCount_kept_lt (fuel : Nat) :
    ∀ p, p ≤ fuel → p / 2 ^ dropCount fuel p < 2 ^ 53 := by
  induction fuel with
  | zero =>
    intro p hp
    have h0 : p = 0 := by omega
    subst h0
    rw [Nat.zero_div]
    positivity
  | succ fuel ih =>
    intro p hp
    by_cases h : p < 2 ^ 53
    · rw [dropCount_small fuel p h, pow_zero, Nat.div_one]
      exact h
    · rw [dropCount_large fuel p h, div_two_pow_succ]
      have h2 : (2 : Nat) ≤ 2 ^ 53 := by decide
      exact ih (p / 2) (by omega)

/-- When some bits are dropped, what is kept has its leading bit at position 52. -/
theorem dropCount_kept_ge (fuel : Nat) :
    ∀ p, dropCount fuel p ≠ 0 → 2 ^ 52 ≤ p / 2 ^ dropCount fuel p := by
  induction fuel with
  | zero =>
    intro p h
    exact absurd rfl h
  | succ fuel ih =>
    intro p hd
    by_cases h : p < 2 ^ 53
    · exact absurd (dropCount_small fuel p h) hd
    · rw [dropCount_large fuel p h, div_two_pow_succ]
      by_cases h0 : dropCount fuel (p / 2) = 0
      · rw [h0, pow_zero, Nat.div_one]
        have h53 : (2 : Nat) ^ 53 = 2 * 2 ^ 52 := by decide
        omega
      · exact ih (p / 2) h0

/-- The bits kept by the rounding form a 53-bit significand: below `2 ^ 53`
always, and at least `2 ^ 52` whenever a bit is dropped. -/
theorem droppedBits_spec (p : Nat) :
    p / 2 ^ droppedBits p < 2 ^ 53 ∧
    (droppedBits p ≠ 0 → 2 ^ 52 ≤ p / 2 ^ droppedBits p) :=
  ⟨dropCount_kept_lt p p (Nat.le_refl p), dropCount_kept_ge p p⟩

/-- A result below `2 ^ (k + 53)` drops at most `k` bits. -/
theorem dropCount_le (fuel : Nat) :
    ∀ p k, p < 2 ^ (k + 53) → dropCount fuel p ≤ k := by
  induction fuel with
  | zero =>
    intro p k _
    exact Nat.zero_le k
  | succ fuel ih =>
    intro p k hp
    by_cases h : p < 2 ^ 53
    · rw [dropCount_small fuel p h]
      exact Nat.zero_le k
    · rw [dropCount_large fuel p h]
      cases k with
      | zero =>
        rw [Nat.zero_add] at hp
        exact absurd hp h
      | succ k =>
        have hpow : 2 ^ (k + 1 + 53) = 2 * 2 ^ (k + 53) := by
          rw [show k + 1 + 53 = (k + 53) + 1 by omega, pow_succ, mul_comm]
        have := ih (p / 2) k (by omega)
        omega

/-- The unit of the last kept bit of a result below `2 ^ (k + 53)` is at most `2 ^ k`. -/
theorem dropped_unit_le (p k : Nat) (h : p < 2 ^ (k + 53)) :
    2 ^ droppedBits p ≤ 2 ^ k :=
  Nat.pow_le_pow_right (by decide) (dropCount_le p p k h)

/-- Rounding moves the exact result up by at most half a unit of the last
kept bit. -/
theorem two_mul_roundToDouble_le (p : Nat) :
    2 * roundToDouble p ≤ 2 * p + 2 ^ droppedBits p := by
  have hdm := Nat.div_add_mod p (2 ^ droppedBits p)
  simp only [roundToDouble]
  generalize 2 ^ droppedBits p = b at *
  generalize p / b = q at *
  generalize p % b = r at *
  have hup : (q + 1) * b = b * q + b := by ring
  have hdown : q * b = b * q := by ring
  split
  · rename_i h
    rw [hup]
    rcases h with h | h <;> omega
  · rw [hdown]
    omega

/-- Rounding moves the exact result down by at most half a unit of the last
kept bit. -/
theorem two_mul_roundToDouble_ge (p : Nat) :
    2 * p ≤ 2 * roundToDouble p + 2 ^ droppedBits p := by
  have hdm := Nat.div_add_mod p (2 ^ droppedBits p)
  have hmod : p % 2 ^ droppedBits p < 2 ^ droppedBits p := Nat.mod_lt _ (by positivity)
  simp only [roundToDouble]
  generalize 2 ^ droppedBits p = b at *
  generalize p / b = q at *
  generalize p % b = r at *
  have hup : (q + 1) * b = b * q + b := by ring
  have hdown : q * b = b * q := by ring
  split
  · rw [hup]
    omega
  · rename_i h
    rw [hdown]
    have h1 : ¬ b < 2 * r := fun hh => h (Or.inl hh)
    omega

/-- For a draw below one and a constant `c` with `c <= 2 ^ k < 2 * c`, the
rounded product stays below `c`, so its integer part is at most `c - 1`. -/
theorem floorOfProduct_lt (d : Draw) (c k : Nat) (hd : d.inUnitInterval)
    (hc0 : 0 < c) (hc : c ≤ 2 ^ k) (hk : 2 ^ k < 2 * c) : floorOfProduct d c < c := by
  obtain ⟨h53, _, hlt⟩ := hd
  unfold floorOfProduct
  rw [Nat.div_lt_iff_lt_mul (by positivity)]
  have h1 := two_mul_roundToDouble_le (d.numerator * c)
  have hp : d.numerator * c < 2 ^ (k + 53) := by
    rw [pow_add, mul_comm (2 ^ k)]
    calc d.numerator * c < 2 ^ 53 * c := Nat.mul_lt_mul_of_pos_right h53 hc0
      _ ≤ 2 ^ 53 * 2 ^ k := Nat.mul_le_mul_left _ hc
  have h2 := dropped_unit_le _ k hp
  have h3 : (d.numerator + 1) * c ≤ 2 ^ d.scale * c := Nat.mul_le_mul_right c hlt
  have h4 : (d.numerator + 1) * c = d.numerator * c + c := by ring
  have h5 : c * 2 ^ d.scale = 2 ^ d.scale * c := by ring
  rw [h5]
  omega

/-- The rounding is the one of the program and not exact arithmetic: for the
draw `3677939695685905 / 2 ^ 52` the exact product with 60 is just below 49
and its integer part is 48, while the binary64 product is 49, so the card
shows 69. -/
theorem floorOfProduct_rounds_up :
    (⟨3677939695685905, 52⟩ : Draw).inUnitInterval ∧
    3677939695685905 * 60 / 2 ^ 52 = 48 ∧
    floorOfProduct ⟨3677939695685905, 52⟩ 60 = 49 := by
  decide

/-- A draw in `[0, 1)` gives a cooking time between 20 and 79. -/
theorem cookingTime_range (d : Draw) (hd : d.inUnitInterval) :
    (20 : Int) ≤ (floorOfProduct d 60 : Nat) + 20 ∧ ((floorOfProduct d 60 : Nat) : Int) + 20 ≤ 79 := by
  have h := floorOfProduct_lt d 60 6 hd (by decide) (by decide) (by decide)
  omega

/-- A draw in `[0, 1)` gives a serving count between 1 and 4. -/
theorem servings_range (d : Draw) (hd : d.inUnitInterval) :
    (1 : Int) ≤ (floorOfProduct d 4 : Nat) + 1 ∧ ((floorOfProduct d 4 : Nat) : Int) + 1 ≤ 4 := by
  have h := floorOfProduct_lt d 4 2 hd (by decide) (by decide) (by decide)
  omega

/-- Every card built by `addDetails` carries the literal string when the
cooking time is not "any" and the number `Math.floor(r * 60) + 20` for some
draw `r` otherwise; its servings are `Math.floor(r * 4) + 1` for some draw. -/
theorem addDetails_fields (cookingTime : String) (rnd : Nat → Draw) (meals : List Meal) :
    ∀ next, ∀ r ∈ addDetails cookingTime rnd next meals,
      (cookingTime ≠ "any" → r.cookingTime = .string cookingTime) ∧
      (cookingTime = "any" →
        ∃ k, r.cookingTime = .number ((floorOfProduct (rnd k) 60 : Nat) + 20)) ∧
      (∃ k, r.servings = (floorOfProduct (rnd k) 4 : Nat) + 1) := by
  induction meals with
  | nil => intro next r hr; simp [addDetails] at hr
  | cons m rest ih =>
    intro next r hr
    unfold addDetails at hr
    by_cases hc : cookingTime = "any"
    · simp only [hc, if_true, List.mem_cons] at hr
      rcases hr with rfl | hr
      · exact ⟨fun h => absurd hc h, fun _ => ⟨next, rfl⟩, ⟨next + 1, rfl⟩⟩
      · exact ih (next + 2) r (hc ▸ hr)
    · simp only [hc, if_false, List.mem_cons] at hr
      rcases hr with rfl | hr
      · exact ⟨fun _ => rfl, fun h => absurd h hc, ⟨next, rfl⟩⟩
      · exact ih (next + 1) r hr

/-- Claim C8. Let every value of the random source be a binary64 number `r`
with `0 <= r < 1` and let a search pass validation and reach line 77 with the
list `filtered`. Then the cards carry exactly the stubs of `filtered` (same
length, ids and order), and on every card: the cooking time is the requested
string itself when the `cookingTime` state is not "any", and is the integer
`Math.floor(r * 60) + 20` for a draw `r`, with the product rounded as binary64
rounds it, between 20 and 79, when it is "any"; the servings are the integer
`Math.floor(r * 4) + 1` for a draw `r`, between 1 and 4. -/
theorem fetchRecipes_details (env : String → Response) (rnd : Nat → Draw) (s : AppState)
    (filtered : List Meal) (hrnd : ∀ k, (rnd k).inUnitInterval)
    (hv : ¬ (s.ingredients = "" ∧ s.cuisine = "any"))
    (hf : (filterStage env s).result = .ok (some filtered)) :
    (fetchRecipes env rnd s).state.recipes.map (fun r => r.meal) = filtered ∧
    (fetchRecipes env rnd s).state.recipes.length = filtered.length ∧
    (fetchRecipes env rnd s).state.recipes.map (fun r => r.meal.idMeal)
      = filtered.map (fun m => m.idMeal) ∧
    ∀ r ∈ (fetchRecipes env rnd s).state.recipes,
      (s.cookingTime ≠ "any" → r.cookingTime = .string s.cookingTime) ∧
      (s.cookingTime = "any" →
        ∃ k n : Nat, n = floorOfProduct (rnd k) 60 + 20 ∧
          r.cookingTime = .number n ∧ 20 ≤ n ∧ n ≤ 79) ∧
      (∃ k, r.servings = (floorOfProduct (rnd k) 4 : Nat) + 1) ∧
      1 ≤ r.servings ∧ r.servings ≤ 4 := by
  have hrec : (fetchRecipes env rnd s).state.recipes
      = addDetails s.cookingTime rnd 0 filtered := by
    simp [fetchRecipes, hv, tryBlock, hf]
  have hmeal := addDetails_meal s.cookingTime rnd filtered 0
  rw [hrec]
  refine ⟨hmeal, ?_, ?_, ?_⟩
  · have := congrArg List.length hmeal
    simpa using this
  · have := congrArg (List.map (fun m : Meal => m.idMeal)) hmeal
    simpa [List.map_map] using this
  · intro r hr
    obtain ⟨h1, h2, k, hk⟩ := addDetails_fields s.cookingTime rnd filtered 0 r hr
    refine ⟨h1, ?_, ⟨k, hk⟩, ?_, ?_⟩
    · intro hc
      obtain ⟨j, hj⟩ := h2 hc
      have hb := cookingTime_range (rnd j) (hrnd j)
      refine ⟨j, floorOfProduct (rnd j) 60 + 20, rfl, ?_, ?_, ?_⟩
      · rw [hj]
        simp
      · omega
      · omega
    · rw [hk]
      exact (servings_range (rnd k) (hrnd k)).1
    · rw [hk]
      exact (servings_range (rnd k) (hrnd k)).2

/-- Instance of C8: "onion", cooking time "any", every draw equal to one half. -/
theorem fetchRecipes_details_witness :
    (∀ k, (halves k).inUnitInterval) ∧
    ¬ ((criteria "onion" "any" "any" "any").ingredients = "" ∧
        (criteria "onion" "any" "any" "any").cuisine = "any") ∧
    (filterStage sampleNetwork (criteria "onion" "any" "any" "any")).result
      = .ok (some [teriyaki, bainganBharta]) ∧
    (fetchRecipes sampleNetwork halves (criteria "onion" "any" "any" "any")).state.recipes.map
        (fun r => r.meal) = [teriyaki, bainganBharta] ∧
    ∀ r ∈ (fetchRecipes sampleNetwork halves (criteria "onion" "any" "any" "any")).state.recipes,
      (∃ k n : Nat, n = floorOfProduct (halves k) 60 + 20 ∧
        r.cookingTime = .number n ∧ 20 ≤ n ∧ n ≤ 79) ∧
      1 ≤ r.servings ∧ r.servings ≤ 4 :=
  ⟨fun _ => (by decide : (⟨1, 1⟩ : Draw).inUnitInterval), by decide, by rfl,
    (fetchRecipes_details sampleNetwork halves (criteria "onion" "any" "any" "any")
      [teriyaki, bainganBharta] (fun _ => (by decide : (⟨1, 1⟩ : Draw).inUnitInterval)) (by decide) (by rfl)).1,
    fun r hr =>
      have h := (fetchRecipes_details sampleNetwork halves (criteria "onion" "any" "any" "any")
        [teriyaki, bainganBharta] (fun _ => (by decide : (⟨1, 1⟩ : Draw).inUnitInterval)) (by decide)
        (by rfl)).2.2.2 r hr
      ⟨h.2.1 (by decide), h.2.2.2.1, h.2.2.2.2⟩⟩

/-- The cards of the run above: one half gives `Math.floor(30) + 20` minutes
and `Math.floor(2) + 1` servings on every card. -/
theorem fetchRecipes_details_run :
    (fetchRecipes sampleNetwork halves (criteria "onion" "any" "any" "any")).state.recipes
      = [⟨teriyaki, .number 50, 3⟩, ⟨bainganBharta, .number 50, 3⟩] := by
  decide

/-! ## Mount and selectors -/

/-- Claim C9, evaluated. The call made on mount runs in the initial state, where
the ingredients text is empty and the cuisine is "any": whatever the network
and the random source are, it fetches nothing, loads no card and leaves the
validation message as the error. -/
theorem onMount_validation (env : String → Response) (rnd : Nat → Draw) :
    (onMount env rnd).fetched = [] ∧
    (onMount env rnd).state.recipes = [] ∧
    (onMount env rnd).state.error = validationMessage ∧
    (onMount env rnd).state.error ≠ "" := by
  refine ⟨rfl, rfl, rfl, ?_⟩
  show validationMessage ≠ ""
  decide

/-- Claim C10, evaluated. The first option of the cooking-time selector and the
first option of the dietary selector have the empty string as value, which is
neither "any" nor a number of minutes nor a dietary name. After choosing the
first cooking-time option, a search decorates every card with the empty
string as cooking time instead of a number between 20 and 79. -/
theorem selector_empty_value :
    cookingTimeOptions.head? = some "" ∧
    "" ≠ "any" ∧ "".toNat? = none ∧
    dietaryPreferenceOptions.head? = some "" ∧
    "" ∉ ["vegetarian", "vegan", "gluten-free", "dairy-free", "any"] ∧
    cuisineOptions.head? = some "any" ∧
    (fetchRecipes sampleNetwork halves
        (setCookingTime "" (criteria "onion" "any" "any" "any"))).state.recipes.map
        (fun r => r.cookingTime)
      = [.string "", .string ""] :=
  ⟨by decide, by decide, by decide, by decide, by decide, by decide, by decide⟩

end RecipeApp
